import Mathlib

/-!
# namira-core: start-up wiring (`cmd/namira-core/main.go`)

A shallow embedding of the entry point of namira-core: the version helpers
`Version` / `VersionStatement` and the package initialiser `init`, which loads
the configuration, builds the logger, the Redis client and the GitHub updater,
runs the updater's health check, registers the persistent command-line flags,
applies the flag fallback to the configuration and adds the API subcommand.

Everything `init` calls outside this file (`config.Load`, `logger.Init`,
`github.NewUpdater`, `(*Updater).HealthCheck`, `core.DefaultCheckTimeout`, the
Go runtime strings) is a parameter of the model, gathered in `Env`.  The run of
`init` is a pure function returning the final package-level variables, the
ordered trace of external calls it made, and how it ended.
-/

namespace NamiraCore

/-! ## Go values -/

/-- One byte. -/
abbrev Byte := Fin 256

/-- A Go `string`: an immutable sequence of bytes. -/
structure GoString where
  bytes : List Byte
deriving DecidableEq, Repr

namespace GoString

/-- The empty string `""`, the zero value of `string`. -/
def empty : GoString := ⟨[]⟩

/-- Go `len(s)`: the number of bytes. -/
def len (s : GoString) : Nat := s.bytes.length

/-- Go string concatenation `a + b`. -/
def append (a b : GoString) : GoString := ⟨a.bytes ++ b.bytes⟩

instance : Append GoString := ⟨append⟩

instance : Inhabited GoString := ⟨empty⟩

end GoString

/-- A Go string literal of the source text (source files are UTF-8). -/
def lit (s : String) : GoString :=
  ⟨s.toUTF8.data.toList.map fun b => b.val⟩

/-- Go conversion `[]byte(s)`: a fresh byte slice holding the bytes of `s`. -/
def toByteSlice (s : GoString) : List Byte := s.bytes

/-- Go `strings.Join(elems, sep)`: empty for no element, the element itself
for one, otherwise the first element followed by `sep` and the next element,
for each further element in order. -/
def stringsJoin (elems : List GoString) (sep : GoString) : GoString :=
  match elems with
  | [] => GoString.empty
  | [e] => e
  | e :: rest => rest.foldl (fun b s => b ++ sep ++ s) e

/-- A Go `error` value (non-nil). -/
structure GoError where
  msg : GoString
deriving DecidableEq, Repr

/-! ## Version helpers (lines 19-35) -/

/-- The package variables `name`, `build`, `version` (lines 19-23) with their
initialisers; being variables, a build may give them other values. -/
structure Vars where
  name : GoString := lit "namira-core"
  build : GoString := lit "Custom"
  version : GoString := lit "1.0.0"
deriving DecidableEq, Repr

/-- What the Go runtime reports: `runtime.Version()`, `runtime.GOOS`,
`runtime.GOARCH`. -/
structure Runtime where
  Version : GoString
  GOOS : GoString
  GOARCH : GoString
deriving DecidableEq, Repr

/-- Go function `Version()` (lines 26-28). -/
def Version (v : Vars) : GoString := v.version

/-- Go function `VersionStatement()` (lines 31-35). -/
def VersionStatement (v : Vars) (rt : Runtime) : GoString :=
  stringsJoin
    [v.name, lit " ", Version v, lit " ", v.build, lit " (", rt.Version, lit " ",
      rt.GOOS, lit "/", rt.GOARCH, lit ")"]
    (lit "")

/-! ## Configuration and collaborators

The types `config.Config`, `redis.Options`, `*zap.Logger`, `*redis.Client` and
`*github.Updater` are declared outside this file; the model keeps the fields
and operations `main.go` uses. -/

/-- The `Server` part of the configuration, `cfg.Server`. -/
structure ServerConfig where
  Port : GoString
deriving DecidableEq, Repr

/-- The `App` part of the configuration, `cfg.App`; `Timeout` is a
`time.Duration` (nanoseconds), `MaxConcurrent` an `int`. -/
structure AppConfig where
  LogLevel : GoString
  EncryptionKey : GoString
  Timeout : Int
  MaxConcurrent : Int
  CheckHost : GoString
deriving DecidableEq, Repr

/-- The `Redis` part of the configuration, `cfg.Redis`. -/
structure RedisConfig where
  Addr : GoString
  Password : GoString
  DB : Int
deriving DecidableEq, Repr

/-- The `Github` part of the configuration, `cfg.Github`. -/
structure GithubConfig where
  SSHKeyPath : GoString
  Owner : GoString
  Repo : GoString
deriving DecidableEq, Repr

/-- The type `config.Config`, as far as `main.go` reads and writes it. -/
structure Config where
  Server : ServerConfig
  App : AppConfig
  Redis : RedisConfig
  Github : GithubConfig
deriving DecidableEq, Repr

/-- The type `redis.Options` with the three fields set at lines 69-73. -/
structure RedisOptions where
  Addr : GoString
  Password : GoString
  DB : Int
deriving DecidableEq, Repr

/-- A `*redis.Client`, identified by the options it was constructed from. -/
structure RedisClient where
  opts : RedisOptions
deriving DecidableEq, Repr

/-- A `*zap.Logger` handle. -/
structure Logger where
  id : Nat
deriving DecidableEq, Repr

/-- A `*github.Updater` handle. -/
structure Updater where
  id : Nat
deriving DecidableEq, Repr

/-- The default value a flag is registered with. -/
inductive FlagValue where
  | string (s : GoString)
  | duration (d : Int)
  | int (n : Int)
deriving DecidableEq, Repr

/-- A registered flag: name, one-letter shorthand, default and usage text. -/
structure Flag where
  Name : GoString
  Shorthand : GoString
  DefValue : FlagValue
  Usage : GoString
deriving DecidableEq, Repr

/-- A `cobra.Command`, as far as `main.go` touches it: its `Use` string, its
persistent flag set and its subcommands (by `Use` string). -/
structure Command where
  Use : GoString
  persistentFlags : List Flag
  commands : List GoString
deriving DecidableEq, Repr

/-- Registration `cmd.PersistentFlags().XxxVarP(...)` adds the flag to the
persistent set. -/
def Command.addPersistentFlag (c : Command) (f : Flag) : Command :=
  { c with persistentFlags := c.persistentFlags ++ [f] }

/-- Go method `cmd.AddCommand(sub)`. -/
def Command.AddCommand (c : Command) (sub : GoString) : Command :=
  { c with commands := c.commands ++ [sub] }

/-! ## Package-level variables (lines 37-53) -/

/-- The package-level variables of lines 37-53.  Pointers are `none` while
nil. -/
structure Globals where
  port : GoString
  timeout : Int
  maxConcurrent : Int
  checkHost : GoString
  cfg : Option Config
  updater : Option Updater
  redisClient : Option RedisClient
  appLogger : Option Logger
  rootCmd : Command
deriving DecidableEq, Repr

/-- The variables as the declarations of lines 37-53 leave them: zero values,
and `rootCmd` with `Use: name`, no flag and no subcommand. -/
def initialGlobals (v : Vars) : Globals where
  port := GoString.empty
  timeout := 0
  maxConcurrent := 0
  checkHost := GoString.empty
  cfg := none
  updater := none
  redisClient := none
  appLogger := none
  rootCmd := { Use := v.name, persistentFlags := [], commands := [] }

/-! ## The environment of `init` -/

/-- Everything `init` obtains from outside `main.go`.  A Go call returning
`(value, error)` is a pair whose second component is `none` for a nil error. -/
structure Env where
  /-- The Go runtime strings. -/
  rt : Runtime
  /-- The result of `config.Load()`. -/
  configLoad : Config
  /-- The function `logger.Init(level)`. -/
  loggerInit : GoString → Logger × Option GoError
  /-- The function
  `github.NewUpdater(sshKeyPath, redisClient, owner, repo, encryptionKey)`. -/
  newUpdater : GoString → RedisClient → GoString → GoString → List Byte →
    Updater × Option GoError
  /-- The method `(*Updater).HealthCheck()`. -/
  healthCheck : Updater → Option GoError
  /-- The constant `core.DefaultCheckTimeout`. -/
  DefaultCheckTimeout : Int
  /-- The `Use` string of `apiCmd`, declared in another file of the package. -/
  apiCmd : GoString

/-! ## Observable actions -/

/-- The calls `init` makes on its collaborators, with their arguments and
results.  `redisCommand` is a read (`write = false`) or write (`write = true`)
command issued on a Redis client. -/
inductive Event where
  | println (s : GoString)
  | configLoad
  | loggerInit (level : GoString) (err : Option GoError)
  | logFatalf (format : GoString) (err : GoError)
  | redisNewClient (opts : RedisOptions)
  | redisCommand (client : RedisClient) (write : Bool)
  | newUpdater (sshKeyPath : GoString) (client : RedisClient) (owner repo : GoString)
      (encryptionKey : List Byte) (result : Updater) (err : Option GoError)
  | loggerFatal (lg : Logger) (msg : GoString) (err : GoError)
  | healthCheck (u : Updater) (err : Option GoError)
  | loggerInfo (lg : Logger) (msg : GoString) (repo sshKey : GoString)
  | flagVarP (f : Flag)
  | addCommand (sub : GoString)
deriving DecidableEq, Repr

namespace Event

/-- The event is a call of `HealthCheck`. -/
def isHealthCheck : Event → Bool
  | healthCheck _ _ => true
  | _ => false

/-- The event is a flag registration. -/
def isFlagVarP : Event → Bool
  | flagVarP _ => true
  | _ => false

/-- The event is `rootCmd.AddCommand`. -/
def isAddCommand : Event → Bool
  | addCommand _ => true
  | _ => false

/-- The event is a read or write command on a Redis client. -/
def isRedisCommand : Event → Bool
  | redisCommand _ _ => true
  | _ => false

/-- The event is the construction of a Redis client. -/
def isRedisNewClient : Event → Bool
  | redisNewClient _ => true
  | _ => false

/-- The event is a call of `github.NewUpdater`. -/
def isNewUpdater : Event → Bool
  | newUpdater _ _ _ _ _ _ _ => true
  | _ => false

/-- The Redis client an event involves, if any. -/
def redisClient? : Event → Option RedisClient
  | redisNewClient opts => some ⟨opts⟩
  | redisCommand c _ => some c
  | newUpdater _ c _ _ _ _ _ => some c
  | _ => none

end Event

/-- How a run of `init` ends: it returns, or the process exits with a status
code (`log.Fatalf` and `(*zap.Logger).Fatal` write their message and then call
`os.Exit(1)`). -/
inductive Outcome where
  | completed
  | exit (code : Int)
deriving DecidableEq, Repr

/-- A run of `init`: final variables, trace of external calls, outcome. -/
structure Run where
  globals : Globals
  trace : List Event
  outcome : Outcome
deriving DecidableEq, Repr

/-! ## `init` (lines 55-116) -/

/-- Lines 96-99: the four `XxxVarP` registrations on
`rootCmd.PersistentFlags()`.  Each stores the default in the variable it is
given and adds the flag to the set. -/
def registerFlags (dct : Int) (g : Globals) : Globals × List Event :=
  let fPort : Flag :=
    ⟨lit "port", lit "p", .string (lit ""), lit "Port to run the service on"⟩
  let g := { g with port := lit "", rootCmd := g.rootCmd.addPersistentFlag fPort }
  let fTimeout : Flag :=
    ⟨lit "timeout", lit "t", .duration dct, lit "Connection timeout"⟩
  let g := { g with timeout := dct, rootCmd := g.rootCmd.addPersistentFlag fTimeout }
  let fConcurrent : Flag :=
    ⟨lit "concurrent", lit "c", .int 0, lit "Maximum concurrent connections"⟩
  let g := { g with maxConcurrent := 0, rootCmd := g.rootCmd.addPersistentFlag fConcurrent }
  let fHost : Flag :=
    ⟨lit "host", lit "H", .string (lit ""), lit "Host to check"⟩
  let g := { g with checkHost := lit "", rootCmd := g.rootCmd.addPersistentFlag fHost }
  (g, [.flagVarP fPort, .flagVarP fTimeout, .flagVarP fConcurrent, .flagVarP fHost])

/-- Lines 101-112: the flag fallback on the configuration, reading the flag
variables `port`, `timeout`, `maxConcurrent`, `checkHost`. -/
def flagFallback (g : Globals) (cfg : Config) : Config :=
  let cfg :=
    if cfg.Server.Port = lit "" then
      { cfg with Server := { cfg.Server with Port := g.port } }
    else cfg
  let cfg :=
    if cfg.App.Timeout = 0 then
      { cfg with App := { cfg.App with Timeout := g.timeout } }
    else cfg
  let cfg :=
    if cfg.App.MaxConcurrent = 0 then
      { cfg with App := { cfg.App with MaxConcurrent := g.maxConcurrent } }
    else cfg
  let cfg :=
    if cfg.App.CheckHost = lit "" then
      { cfg with App := { cfg.App with CheckHost := g.checkHost } }
    else cfg
  cfg

/-- Lines 92-115: what `init` does once the health check has passed. -/
def initAfterHealthCheck (env : Env) (cfg : Config) (lg : Logger) (g : Globals)
    (tr : List Event) : Run :=
  -- appLogger.Info(...), lines 92-94
  let tr := tr ++ [.loggerInfo lg (lit "GitHub updater initialized successfully")
    (cfg.Github.Owner ++ lit "/" ++ cfg.Github.Repo) cfg.Github.SSHKeyPath]
  -- lines 96-99
  let (g, evs) := registerFlags env.DefaultCheckTimeout g
  let tr := tr ++ evs
  -- lines 101-112
  let g := { g with cfg := some (flagFallback g cfg) }
  -- line 115
  let g := { g with rootCmd := g.rootCmd.AddCommand env.apiCmd }
  let tr := tr ++ [.addCommand env.apiCmd]
  ⟨g, tr, .completed⟩

/-- Lines 69-73: the `redis.Options` literal handed to `redis.NewClient`. -/
def redisOptionsOf (cfg : Config) : RedisOptions :=
  { Addr := cfg.Redis.Addr, Password := cfg.Redis.Password, DB := cfg.Redis.DB }

/-- The package initialiser `init()` (lines 55-116), run from the package-level
variables `g` with the variables `v` of lines 19-23. -/
def init (env : Env) (v : Vars) (g : Globals) : Run :=
  -- line 56
  let tr := [Event.println (VersionStatement v env.rt)]
  -- line 59
  let cfg := env.configLoad
  let g := { g with cfg := some cfg }
  let tr := tr ++ [.configLoad]
  -- lines 62-66
  let (lg, err) := env.loggerInit cfg.App.LogLevel
  let g := { g with appLogger := some lg }
  let tr := tr ++ [.loggerInit cfg.App.LogLevel err]
  match err with
  | some e =>
    ⟨g, tr ++ [.logFatalf (lit "Failed to initialize logger: %v") e], .exit 1⟩
  | none =>
    -- lines 69-73
    let opts := redisOptionsOf cfg
    let client : RedisClient := ⟨opts⟩
    let g := { g with redisClient := some client }
    let tr := tr ++ [.redisNewClient opts]
    -- lines 76-86
    let encryptionKey := toByteSlice cfg.App.EncryptionKey
    let (u, err) :=
      env.newUpdater cfg.Github.SSHKeyPath client cfg.Github.Owner cfg.Github.Repo
        encryptionKey
    let g := { g with updater := some u }
    let tr := tr ++ [.newUpdater cfg.Github.SSHKeyPath client cfg.Github.Owner
      cfg.Github.Repo encryptionKey u err]
    match err with
    | some e =>
      ⟨g, tr ++ [.loggerFatal lg (lit "Failed to create updater:") e], .exit 1⟩
    | none =>
      -- lines 88-90
      let herr := env.healthCheck u
      let tr := tr ++ [.healthCheck u herr]
      match herr with
      | some e =>
        ⟨g, tr ++ [.loggerFatal lg (lit "GitHub SSH connectivity test failed:") e],
          .exit 1⟩
      | none => initAfterHealthCheck env cfg lg g tr

/-! ## Sample environments -/

/-- A sample configuration with every fallback field unset. -/
def sampleConfig : Config where
  Server := { Port := lit "" }
  App := { LogLevel := lit "info", EncryptionKey := lit "0123456789abcdef",
           Timeout := 0, MaxConcurrent := 0, CheckHost := lit "" }
  Redis := { Addr := lit "localhost:6379", Password := lit "", DB := 0 }
  Github := { SSHKeyPath := lit "/keys/id", Owner := lit "o", Repo := lit "r" }

/-- A sample configuration with every fallback field set. -/
def sampleConfigSet : Config :=
  { sampleConfig with
    Server := { Port := lit "8080" }
    App := { sampleConfig.App with
      Timeout := 5000000000, MaxConcurrent := 4, CheckHost := lit "example.com" } }

/-- A sample Go runtime. -/
def sampleRuntime : Runtime := ⟨lit "go1.22.0", lit "linux", lit "amd64"⟩

/-- An environment in which every start-up step succeeds. -/
def envOk (cfg : Config) : Env where
  rt := sampleRuntime
  configLoad := cfg
  loggerInit := fun _ => (⟨1⟩, none)
  newUpdater := fun _ _ _ _ _ => (⟨2⟩, none)
  healthCheck := fun _ => none
  DefaultCheckTimeout := 10000000000
  apiCmd := lit "api"

/-- An environment in which `logger.Init` fails. -/
def envLoggerFails : Env :=
  { envOk sampleConfig with loggerInit := fun _ => (⟨0⟩, some ⟨lit "bad level"⟩) }

/-- An environment in which `github.NewUpdater` fails. -/
def envUpdaterFails : Env :=
  { envOk sampleConfig with newUpdater := fun _ _ _ _ _ => (⟨0⟩, some ⟨lit "no key"⟩) }

/-- An environment in which the health check fails. -/
def envHealthFails : Env :=
  { envOk sampleConfig with healthCheck := fun _ => some ⟨lit "ssh: unreachable"⟩ }

/-! ## Names for the calls `init` makes -/

/-- The result of the call `logger.Init(cfg.App.LogLevel)` of line 63. -/
def Env.loggerResult (env : Env) : Logger × Option GoError :=
  env.loggerInit env.configLoad.App.LogLevel

/-- The Redis client constructed at lines 69-73. -/
def Env.client (env : Env) : RedisClient := ⟨redisOptionsOf env.configLoad⟩

/-- The result of the call `github.NewUpdater(...)` of lines 77-83. -/
def Env.updaterResult (env : Env) : Updater × Option GoError :=
  env.newUpdater env.configLoad.Github.SSHKeyPath env.client env.configLoad.Github.Owner
    env.configLoad.Github.Repo (toByteSlice env.configLoad.App.EncryptionKey)

/-- The events up to and including the call of `logger.Init`. -/
def Env.loggerTrace (env : Env) (v : Vars) (err : Option GoError) : List Event :=
  [.println (VersionStatement v env.rt), .configLoad,
    .loggerInit env.configLoad.App.LogLevel err]

/-- The events up to and including the call of `github.NewUpdater`. -/
def Env.updaterTrace (env : Env) (v : Vars) (u : Updater) (err : Option GoError) :
    List Event :=
  env.loggerTrace v none ++
    [.redisNewClient (redisOptionsOf env.configLoad),
      .newUpdater env.configLoad.Github.SSHKeyPath env.client env.configLoad.Github.Owner
        env.configLoad.Github.Repo (toByteSlice env.configLoad.App.EncryptionKey) u err]

/-- The package-level variables once the updater has been created. -/
def Env.globalsWithUpdater (env : Env) (g : Globals) (lg : Logger) (u : Updater) :
    Globals :=
  { g with cfg := some env.configLoad, appLogger := some lg,
           redisClient := some env.client, updater := some u }

/-! ## Basic facts about Go strings -/

/-- Concatenation of strings concatenates their bytes. -/
theorem GoString.bytes_append (a b : GoString) :
    (a ++ b).bytes = a.bytes ++ b.bytes := rfl

/-- The literal `""` has no byte. -/
theorem lit_empty_bytes : (lit "").bytes = [] := rfl

/-- Two strings with the same bytes are equal. -/
theorem GoString.ext_bytes {a b : GoString} (h : a.bytes = b.bytes) : a = b := by
  cases a; cases b; simp_all

/-- Appending the empty literal changes nothing. -/
theorem GoString.append_lit_empty (a : GoString) : a ++ lit "" = a :=
  GoString.ext_bytes (by simp [GoString.bytes_append, lit_empty_bytes])

/-- The length of a concatenation is the sum of the lengths. -/
theorem GoString.len_append (a b : GoString) :
    (a ++ b).len = a.len + b.len := by
  simp [GoString.len, GoString.bytes_append]

/-! ## The four ways `init` can end -/

/-- When `logger.Init` fails, `init` stops right after reporting it. -/
theorem init_logger_fails (env : Env) (v : Vars) (g : Globals) (lg : Logger) (e : GoError)
    (hL : env.loggerResult = (lg, some e)) :
    init env v g =
      ⟨{ g with cfg := some env.configLoad, appLogger := some lg },
        env.loggerTrace v (some e) ++ [.logFatalf (lit "Failed to initialize logger: %v") e],
        .exit 1⟩ := by
  simp only [Env.loggerResult] at hL
  simp [init, hL, Env.loggerTrace]

/-- When `github.NewUpdater` fails, `init` stops right after reporting it. -/
theorem init_updater_fails (env : Env) (v : Vars) (g : Globals) (lg : Logger)
    (u : Updater) (e : GoError)
    (hL : env.loggerResult = (lg, none)) (hU : env.updaterResult = (u, some e)) :
    init env v g =
      ⟨env.globalsWithUpdater g lg u,
        env.updaterTrace v u (some e) ++ [.loggerFatal lg (lit "Failed to create updater:") e],
        .exit 1⟩ := by
  simp only [Env.loggerResult, Env.updaterResult, Env.client] at hL hU
  simp [init, hL, hU, Env.loggerTrace, Env.updaterTrace, Env.globalsWithUpdater, Env.client]

/-- When the health check fails, `init` stops right after reporting it. -/
theorem init_health_fails (env : Env) (v : Vars) (g : Globals) (lg : Logger)
    (u : Updater) (e : GoError)
    (hL : env.loggerResult = (lg, none)) (hU : env.updaterResult = (u, none))
    (hH : env.healthCheck u = some e) :
    init env v g =
      ⟨env.globalsWithUpdater g lg u,
        env.updaterTrace v u none ++ [.healthCheck u (some e),
          .loggerFatal lg (lit "GitHub SSH connectivity test failed:") e],
        .exit 1⟩ := by
  simp only [Env.loggerResult, Env.updaterResult, Env.client] at hL hU
  simp [init, hL, hU, hH, Env.loggerTrace, Env.updaterTrace, Env.globalsWithUpdater,
    Env.client]

/-- When the health check passes, `init` goes on to lines 92-115. -/
theorem init_health_passes (env : Env) (v : Vars) (g : Globals) (lg : Logger)
    (u : Updater)
    (hL : env.loggerResult = (lg, none)) (hU : env.updaterResult = (u, none))
    (hH : env.healthCheck u = none) :
    init env v g =
      initAfterHealthCheck env env.configLoad lg (env.globalsWithUpdater g lg u)
        (env.updaterTrace v u none ++ [.healthCheck u none]) := by
  simp only [Env.loggerResult, Env.updaterResult, Env.client] at hL hU
  simp [init, hL, hU, hH, Env.loggerTrace, Env.updaterTrace, Env.globalsWithUpdater,
    Env.client]

/-- With the flag variables at their registered defaults, the fallback can
only replace a zero timeout. -/
theorem flagFallback_defaults (g : Globals) (cfg : Config)
    (hp : g.port = lit "") (hm : g.maxConcurrent = 0) (hc : g.checkHost = lit "") :
    flagFallback g cfg =
      { cfg with App := { cfg.App with
          Timeout := if cfg.App.Timeout = 0 then g.timeout else cfg.App.Timeout } } := by
  rcases cfg with ⟨⟨p⟩, ⟨ll, ek, t, mc, ch⟩, r, gh⟩
  simp only [flagFallback, hp, hm, hc]
  split_ifs <;> simp_all

/-- The run of lines 92-115, field by field. -/
theorem initAfterHealthCheck_eq (env : Env) (cfg : Config) (lg : Logger) (g : Globals)
    (tr : List Event) :
    initAfterHealthCheck env cfg lg g tr =
      ⟨{ (registerFlags env.DefaultCheckTimeout g).1 with
          cfg := some { cfg with App := { cfg.App with
            Timeout := if cfg.App.Timeout = 0 then env.DefaultCheckTimeout
              else cfg.App.Timeout } }
          rootCmd := (registerFlags env.DefaultCheckTimeout g).1.rootCmd.AddCommand
            env.apiCmd },
        tr ++ [.loggerInfo lg (lit "GitHub updater initialized successfully")
            (cfg.Github.Owner ++ lit "/" ++ cfg.Github.Repo) cfg.Github.SSHKeyPath] ++
          (registerFlags env.DefaultCheckTimeout g).2 ++ [.addCommand env.apiCmd],
        .completed⟩ := by
  have h := flagFallback_defaults (registerFlags env.DefaultCheckTimeout g).1 cfg rfl rfl rfl
  simp only [initAfterHealthCheck]
  rw [h]
  rfl


/-! ## Claims -/

/-- C7: `Version()` returns the `version` variable, `"1.0.0"` by default, and
`VersionStatement()` is exactly the concatenation
`name ++ " " ++ Version() ++ " " ++ build ++ " (" ++ goVersion ++ " " ++ GOOS ++ "/" ++ GOARCH ++ ")"`
with nothing inserted between the parts (its length is the sum of the parts'
lengths plus the seven bytes of the literals); with the default variables it begins with
`"namira-core 1.0.0 Custom ("` and ends with `")"`. -/
theorem versionStatement_is_concatenation :
    (∀ v : Vars, Version v = v.version) ∧
    Version {} = lit "1.0.0" ∧
    (∀ (v : Vars) (rt : Runtime),
      VersionStatement v rt =
        v.name ++ lit " " ++ Version v ++ lit " " ++ v.build ++ lit " (" ++ rt.Version ++
          lit " " ++ rt.GOOS ++ lit "/" ++ rt.GOARCH ++ lit ")") ∧
    (∀ (v : Vars) (rt : Runtime),
      (VersionStatement v rt).len =
        v.name.len + v.version.len + v.build.len + rt.Version.len + rt.GOOS.len +
          rt.GOARCH.len + 7) ∧
    (∀ rt : Runtime,
      (lit "namira-core 1.0.0 Custom (").bytes <+: (VersionStatement {} rt).bytes ∧
      (lit ")").bytes <:+ (VersionStatement {} rt).bytes) := by
  have hcat : ∀ (v : Vars) (rt : Runtime),
      VersionStatement v rt =
        v.name ++ lit " " ++ Version v ++ lit " " ++ v.build ++ lit " (" ++ rt.Version ++
          lit " " ++ rt.GOOS ++ lit "/" ++ rt.GOARCH ++ lit ")" := by
    intro v rt
    simp [VersionStatement, stringsJoin, GoString.append_lit_empty]
  refine ⟨fun _ => rfl, rfl, hcat, ?_, ?_⟩
  · intro v rt
    rw [hcat]
    have h1 : (lit " ").len = 1 := by decide
    have h2 : (lit " (").len = 2 := by decide
    have h3 : (lit "/").len = 1 := by decide
    have h4 : (lit ")").len = 1 := by decide
    simp only [GoString.len_append, h1, h2, h3, h4, Version]
    omega
  · intro rt
    rw [hcat]
    constructor
    · refine ⟨(rt.Version ++ lit " " ++ rt.GOOS ++ lit "/" ++ rt.GOARCH ++ lit ")").bytes, ?_⟩
      have h : (lit "namira-core 1.0.0 Custom (").bytes =
          (({} : Vars).name ++ lit " " ++ Version {} ++ lit " " ++ ({} : Vars).build ++
            lit " (").bytes := by decide
      rw [h]
      simp [GoString.bytes_append]
    · exact ⟨_, rfl⟩

/-- C1: whenever `HealthCheck` returns an error during start-up, `init` ends
by reporting exactly that error through the logger's `Fatal` and exiting with
status 1; `HealthCheck` was called exactly once; no flag was registered, the
configuration is the loaded one (no fallback applied), the flag variables and
`rootCmd` are untouched and `AddCommand` was never called. -/
theorem healthCheck_error_is_fatal (env : Env) (v : Vars) (g : Globals) (u : Updater)
    (e : GoError) (h : Event.healthCheck u (some e) ∈ (init env v g).trace) :
    (init env v g).outcome = .exit 1 ∧
    (∃ lg, (init env v g).globals.appLogger = some lg ∧
      (init env v g).trace.getLast? =
        some (.loggerFatal lg (lit "GitHub SSH connectivity test failed:") e)) ∧
    (init env v g).trace.filter Event.isHealthCheck = [.healthCheck u (some e)] ∧
    (∀ ev ∈ (init env v g).trace, ev.isFlagVarP = false ∧ ev.isAddCommand = false) ∧
    (init env v g).globals.cfg = some env.configLoad ∧
    (init env v g).globals.rootCmd = g.rootCmd ∧
    (init env v g).globals.port = g.port ∧
    (init env v g).globals.timeout = g.timeout ∧
    (init env v g).globals.maxConcurrent = g.maxConcurrent ∧
    (init env v g).globals.checkHost = g.checkHost := by
  rcases hL : env.loggerResult with ⟨lg, _ | e1⟩
  · rcases hU : env.updaterResult with ⟨u1, _ | e2⟩
    · rcases hH : env.healthCheck u1 with _ | e3
      · rw [init_health_passes env v g lg u1 hL hU hH, initAfterHealthCheck_eq] at h
        simp [Env.updaterTrace, Env.loggerTrace, registerFlags] at h
      · rw [init_health_fails env v g lg u1 e3 hL hU hH] at h ⊢
        simp [Env.updaterTrace, Env.loggerTrace] at h
        obtain ⟨rfl, rfl⟩ := h
        simp [Env.updaterTrace, Env.loggerTrace, Env.globalsWithUpdater, Event.isHealthCheck,
          Event.isFlagVarP, Event.isAddCommand]
    · rw [init_updater_fails env v g lg u1 e2 hL hU] at h
      simp [Env.updaterTrace, Env.loggerTrace] at h
  · rw [init_logger_fails env v g lg e1 hL] at h
    simp [Env.loggerTrace] at h

/-- C1 at a concrete start-up whose health check fails. -/
theorem healthCheck_error_is_fatal_witness :
    Event.healthCheck ⟨2⟩ (some ⟨lit "ssh: unreachable"⟩) ∈
        (init envHealthFails {} (initialGlobals {})).trace ∧
      (init envHealthFails {} (initialGlobals {})).outcome = .exit 1 ∧
      (init envHealthFails {} (initialGlobals {})).trace.filter Event.isHealthCheck =
        [.healthCheck ⟨2⟩ (some ⟨lit "ssh: unreachable"⟩)] :=
  ⟨by decide,
    (healthCheck_error_is_fatal envHealthFails {} (initialGlobals {}) ⟨2⟩
      ⟨lit "ssh: unreachable"⟩ (by decide)).1,
    (healthCheck_error_is_fatal envHealthFails {} (initialGlobals {}) ⟨2⟩
      ⟨lit "ssh: unreachable"⟩ (by decide)).2.2.1⟩


/-- C3: whenever `init` runs to completion, its trace splits around one call
of `HealthCheck` that returned no error: before it no flag was registered and
no subcommand added, after it come the four flag registrations and the
`AddCommand` of the API subcommand, and `HealthCheck` was called nowhere
else. -/
theorem completed_init_checked_health_first (env : Env) (v : Vars) (g : Globals)
    (h : (init env v g).outcome = .completed) :
    ∃ (u : Updater) (pre post : List Event),
      (init env v g).trace = pre ++ Event.healthCheck u none :: post ∧
      env.healthCheck u = none ∧
      (∀ ev ∈ pre, ev.isFlagVarP = false ∧ ev.isAddCommand = false) ∧
      (∀ ev ∈ pre ++ post, ev.isHealthCheck = false) ∧
      (post.filter Event.isFlagVarP).length = 4 ∧
      post.filter Event.isAddCommand = [.addCommand env.apiCmd] ∧
      (init env v g).globals.rootCmd.commands = g.rootCmd.commands ++ [env.apiCmd] := by
  rcases hL : env.loggerResult with ⟨lg, _ | e1⟩
  · rcases hU : env.updaterResult with ⟨u1, _ | e2⟩
    · rcases hH : env.healthCheck u1 with _ | e3
      · rw [init_health_passes env v g lg u1 hL hU hH, initAfterHealthCheck_eq]
        refine ⟨u1, env.updaterTrace v u1 none,
          [.loggerInfo lg (lit "GitHub updater initialized successfully")
            (env.configLoad.Github.Owner ++ lit "/" ++ env.configLoad.Github.Repo)
            env.configLoad.Github.SSHKeyPath] ++
          (registerFlags env.DefaultCheckTimeout (env.globalsWithUpdater g lg u1)).2 ++
          [.addCommand env.apiCmd], ?_, hH, ?_, ?_, ?_, ?_, ?_⟩
        · simp
        · simp [Env.updaterTrace, Env.loggerTrace, Event.isFlagVarP, Event.isAddCommand]
        · simp [Env.updaterTrace, Env.loggerTrace, registerFlags, Event.isHealthCheck]
        · simp [registerFlags, Event.isFlagVarP]
        · simp [registerFlags, Event.isAddCommand]
        · simp [registerFlags, Command.AddCommand, Command.addPersistentFlag,
            Env.globalsWithUpdater]
      · rw [init_health_fails env v g lg u1 e3 hL hU hH] at h
        simp at h
    · rw [init_updater_fails env v g lg u1 e2 hL hU] at h
      simp at h
  · rw [init_logger_fails env v g lg e1 hL] at h
    simp at h

/-- C3 at a concrete start-up in which every step succeeds. -/
theorem completed_init_checked_health_first_witness :
    (init (envOk sampleConfigSet) {} (initialGlobals {})).outcome = .completed ∧
      ∃ (u : Updater) (pre post : List Event),
        (init (envOk sampleConfigSet) {} (initialGlobals {})).trace =
          pre ++ Event.healthCheck u none :: post ∧
        (envOk sampleConfigSet).healthCheck u = none ∧
        (∀ ev ∈ pre, ev.isFlagVarP = false ∧ ev.isAddCommand = false) :=
  ⟨by decide,
    (completed_init_checked_health_first (envOk sampleConfigSet) {} (initialGlobals {})
      (by decide)).imp fun _ hu => hu.imp fun _ hpre => hpre.imp fun _ hp =>
        ⟨hp.1, hp.2.1, hp.2.2.1⟩⟩

/-- C4: in every start-up whose health check returns an error, `init` issued
no read or write command on a Redis client; the only events involving the
client are its construction and its hand-over to `github.NewUpdater`. -/
theorem healthCheck_error_no_redis_command (env : Env) (v : Vars) (g : Globals)
    (u : Updater) (e : GoError)
    (h : Event.healthCheck u (some e) ∈ (init env v g).trace) :
    (∀ ev ∈ (init env v g).trace, ev.isRedisCommand = false) ∧
    (init env v g).trace.filter (fun ev => ev.redisClient?.isSome) =
      [.redisNewClient (redisOptionsOf env.configLoad),
        .newUpdater env.configLoad.Github.SSHKeyPath ⟨redisOptionsOf env.configLoad⟩
          env.configLoad.Github.Owner env.configLoad.Github.Repo
          (toByteSlice env.configLoad.App.EncryptionKey) u none] ∧
    (init env v g).globals.redisClient = some ⟨redisOptionsOf env.configLoad⟩ := by
  rcases hL : env.loggerResult with ⟨lg, _ | e1⟩
  · rcases hU : env.updaterResult with ⟨u1, _ | e2⟩
    · rcases hH : env.healthCheck u1 with _ | e3
      · rw [init_health_passes env v g lg u1 hL hU hH, initAfterHealthCheck_eq] at h
        simp [Env.updaterTrace, Env.loggerTrace, registerFlags] at h
      · rw [init_health_fails env v g lg u1 e3 hL hU hH] at h ⊢
        simp [Env.updaterTrace, Env.loggerTrace] at h
        obtain ⟨rfl, rfl⟩ := h
        simp [Env.updaterTrace, Env.loggerTrace, Env.globalsWithUpdater, Env.client,
          Event.isRedisCommand, Event.redisClient?]
    · rw [init_updater_fails env v g lg u1 e2 hL hU] at h
      simp [Env.updaterTrace, Env.loggerTrace] at h
  · rw [init_logger_fails env v g lg e1 hL] at h
    simp [Env.loggerTrace] at h

/-- C4 at a concrete start-up whose health check fails. -/
theorem healthCheck_error_no_redis_command_witness :
    Event.healthCheck ⟨2⟩ (some ⟨lit "ssh: unreachable"⟩) ∈
        (init envHealthFails {} (initialGlobals {})).trace ∧
      ∀ ev ∈ (init envHealthFails {} (initialGlobals {})).trace, ev.isRedisCommand = false :=
  ⟨by decide,
    (healthCheck_error_no_redis_command envHealthFails {} (initialGlobals {}) ⟨2⟩
      ⟨lit "ssh: unreachable"⟩ (by decide)).1⟩

/-- C5: the key argument of every call of `github.NewUpdater` made by `init` is
exactly the byte sequence of the configured key string, same content and same
length (also for the empty string), and when `logger.Init` succeeds that call
is made, with that key. -/
theorem newUpdater_key_is_config_bytes (env : Env) (v : Vars) (g : Globals) :
    (∀ (p : GoString) (c : RedisClient) (o r : GoString) (key : List Byte) (u : Updater)
        (err : Option GoError),
      Event.newUpdater p c o r key u err ∈ (init env v g).trace →
        key = env.configLoad.App.EncryptionKey.bytes ∧
        key.length = env.configLoad.App.EncryptionKey.len ∧
        (u, err) = env.newUpdater p c o r env.configLoad.App.EncryptionKey.bytes) ∧
    (env.loggerResult.2 = none →
      Event.newUpdater env.configLoad.Github.SSHKeyPath env.client
        env.configLoad.Github.Owner env.configLoad.Github.Repo
        env.configLoad.App.EncryptionKey.bytes env.updaterResult.1 env.updaterResult.2 ∈
        (init env v g).trace) := by
  rcases hL : env.loggerResult with ⟨lg, _ | e1⟩
  · rcases hU : env.updaterResult with ⟨u1, _ | e2⟩
    · rcases hH : env.healthCheck u1 with _ | e3
      · rw [init_health_passes env v g lg u1 hL hU hH, initAfterHealthCheck_eq]
        simp only [Env.updaterResult, Env.client, toByteSlice] at hU
        simp [Env.updaterTrace, Env.loggerTrace, registerFlags, toByteSlice, GoString.len,
          Env.client]
        intro p c o r key u err hp hc ho hr hk hu he
        subst hp hc ho hr hk hu he
        simp [hU]
      · rw [init_health_fails env v g lg u1 e3 hL hU hH]
        simp only [Env.updaterResult, Env.client, toByteSlice] at hU
        simp [Env.updaterTrace, Env.loggerTrace, toByteSlice, GoString.len, Env.client]
        intro p c o r key u err hp hc ho hr hk hu he
        subst hp hc ho hr hk hu he
        simp [hU]
    · rw [init_updater_fails env v g lg u1 e2 hL hU]
      simp only [Env.updaterResult, Env.client, toByteSlice] at hU
      simp [Env.updaterTrace, Env.loggerTrace, toByteSlice, GoString.len, Env.client]
      intro p c o r key u err hp hc ho hr hk hu he
      subst hp hc ho hr hk hu he
      simp [hU]
  · rw [init_logger_fails env v g lg e1 hL]
    simp [Env.loggerTrace]


/-- C5 at a concrete start-up: the call carries the sixteen bytes of the
configured key. -/
theorem newUpdater_key_is_config_bytes_witness :
    Event.newUpdater (lit "/keys/id") ⟨redisOptionsOf sampleConfig⟩ (lit "o") (lit "r")
        (lit "0123456789abcdef").bytes ⟨2⟩ none ∈
        (init (envOk sampleConfig) {} (initialGlobals {})).trace ∧
      (lit "0123456789abcdef").bytes = sampleConfig.App.EncryptionKey.bytes ∧
      (lit "0123456789abcdef").bytes.length = sampleConfig.App.EncryptionKey.len :=
  ⟨by decide,
    ((newUpdater_key_is_config_bytes (envOk sampleConfig) {} (initialGlobals {})).1
      (lit "/keys/id") ⟨redisOptionsOf sampleConfig⟩ (lit "o") (lit "r")
      (lit "0123456789abcdef").bytes ⟨2⟩ none (by decide)).1,
    ((newUpdater_key_is_config_bytes (envOk sampleConfig) {} (initialGlobals {})).1
      (lit "/keys/id") ⟨redisOptionsOf sampleConfig⟩ (lit "o") (lit "r")
      (lit "0123456789abcdef").bytes ⟨2⟩ none (by decide)).2.1⟩

/-- The configuration held when `init` has completed: the loaded one with a
zero timeout replaced by `core.DefaultCheckTimeout`; the flag variables hold
their registered defaults. -/
theorem init_completed_globals (env : Env) (v : Vars) (g : Globals)
    (h : (init env v g).outcome = .completed) :
    (init env v g).globals.cfg =
      some { env.configLoad with App := { env.configLoad.App with
        Timeout := if env.configLoad.App.Timeout = 0 then env.DefaultCheckTimeout
          else env.configLoad.App.Timeout } } ∧
    (init env v g).globals.port = lit "" ∧
    (init env v g).globals.timeout = env.DefaultCheckTimeout ∧
    (init env v g).globals.maxConcurrent = 0 ∧
    (init env v g).globals.checkHost = lit "" := by
  rcases hL : env.loggerResult with ⟨lg, _ | e1⟩
  · rcases hU : env.updaterResult with ⟨u1, _ | e2⟩
    · rcases hH : env.healthCheck u1 with _ | e3
      · rw [init_health_passes env v g lg u1 hL hU hH, initAfterHealthCheck_eq]
        simp [registerFlags]
      · rw [init_health_fails env v g lg u1 e3 hL hU hH] at h
        simp at h
    · rw [init_updater_fails env v g lg u1 e2 hL hU] at h
      simp at h
  · rw [init_logger_fails env v g lg e1 hL] at h
    simp at h

/-- C6: when `init` completes, `cfg.App.Timeout` is `core.DefaultCheckTimeout`
if the loaded timeout was 0 and the loaded timeout otherwise. -/
theorem timeout_default_applies (env : Env) (v : Vars) (g : Globals)
    (h : (init env v g).outcome = .completed) :
    ∃ cfg, (init env v g).globals.cfg = some cfg ∧
      (env.configLoad.App.Timeout = 0 → cfg.App.Timeout = env.DefaultCheckTimeout) ∧
      (env.configLoad.App.Timeout ≠ 0 → cfg.App.Timeout = env.configLoad.App.Timeout) := by
  refine ⟨_, (init_completed_globals env v g h).1, ?_, ?_⟩
  · intro h0
    simp [h0]
  · intro h0
    simp [h0]

/-- C6 at two concrete start-ups: timeout unset, and timeout set to 5s. -/
theorem timeout_default_applies_witness :
    ((init (envOk sampleConfig) {} (initialGlobals {})).outcome = .completed ∧
      sampleConfig.App.Timeout = 0 ∧
      ∃ cfg, (init (envOk sampleConfig) {} (initialGlobals {})).globals.cfg = some cfg ∧
        cfg.App.Timeout = 10000000000) ∧
    ((init (envOk sampleConfigSet) {} (initialGlobals {})).outcome = .completed ∧
      sampleConfigSet.App.Timeout ≠ 0 ∧
      ∃ cfg, (init (envOk sampleConfigSet) {} (initialGlobals {})).globals.cfg = some cfg ∧
        cfg.App.Timeout = 5000000000) :=
  ⟨⟨by decide, by decide,
      (timeout_default_applies (envOk sampleConfig) {} (initialGlobals {}) (by decide)).imp
        fun _ hc => ⟨hc.1, hc.2.1 (by decide)⟩⟩,
    ⟨by decide, by decide,
      (timeout_default_applies (envOk sampleConfigSet) {} (initialGlobals {}) (by decide)).imp
        fun _ hc => ⟨hc.1, hc.2.2 (by decide)⟩⟩⟩

/-- C8: when `init` completes, the flag variables read by the fallback hold
their registered defaults (`""`, 0, `""`), and the configuration has the
loaded server port, maximum concurrency and check host; it differs from the
loaded configuration at most in `App.Timeout`, and not at all when the loaded
timeout was non-zero. -/
theorem flag_fallback_frame (env : Env) (v : Vars) (g : Globals)
    (h : (init env v g).outcome = .completed) :
    (init env v g).globals.port = lit "" ∧
    (init env v g).globals.maxConcurrent = 0 ∧
    (init env v g).globals.checkHost = lit "" ∧
    ∃ cfg, (init env v g).globals.cfg = some cfg ∧
      cfg.Server.Port = env.configLoad.Server.Port ∧
      cfg.App.MaxConcurrent = env.configLoad.App.MaxConcurrent ∧
      cfg.App.CheckHost = env.configLoad.App.CheckHost ∧
      cfg = { env.configLoad with
        App := { env.configLoad.App with Timeout := cfg.App.Timeout } } ∧
      (env.configLoad.App.Timeout ≠ 0 → cfg = env.configLoad) := by
  obtain ⟨hc, hp, -, hm, hh⟩ := init_completed_globals env v g h
  refine ⟨hp, hm, hh, _, hc, rfl, rfl, rfl, rfl, ?_⟩
  intro h0
  simp [h0]

/-- C8 at two concrete start-ups.  With every fallback field unset, all four
fallback branches run and read the flag variables: port, maximum concurrency
and check host stay `""`, 0 and `""`.  With every field set and a non-zero
timeout, the configuration is the loaded one. -/
theorem flag_fallback_frame_witness :
    ((init (envOk sampleConfig) {} (initialGlobals {})).outcome = .completed ∧
      sampleConfig.Server.Port = lit "" ∧ sampleConfig.App.MaxConcurrent = 0 ∧
      sampleConfig.App.CheckHost = lit "" ∧
      (init (envOk sampleConfig) {} (initialGlobals {})).globals.port = lit "" ∧
      (init (envOk sampleConfig) {} (initialGlobals {})).globals.maxConcurrent = 0 ∧
      (init (envOk sampleConfig) {} (initialGlobals {})).globals.checkHost = lit "" ∧
      ∃ cfg, (init (envOk sampleConfig) {} (initialGlobals {})).globals.cfg = some cfg ∧
        cfg.Server.Port = lit "" ∧ cfg.App.MaxConcurrent = 0 ∧
        cfg.App.CheckHost = lit "") ∧
    ((init (envOk sampleConfigSet) {} (initialGlobals {})).outcome = .completed ∧
      sampleConfigSet.App.Timeout ≠ 0 ∧
      ∃ cfg, (init (envOk sampleConfigSet) {} (initialGlobals {})).globals.cfg = some cfg ∧
        cfg = sampleConfigSet) :=
  ⟨⟨by decide, by decide, by decide, by decide,
      (flag_fallback_frame (envOk sampleConfig) {} (initialGlobals {}) (by decide)).1,
      (flag_fallback_frame (envOk sampleConfig) {} (initialGlobals {}) (by decide)).2.1,
      (flag_fallback_frame (envOk sampleConfig) {} (initialGlobals {}) (by decide)).2.2.1,
      (flag_fallback_frame (envOk sampleConfig) {} (initialGlobals {})
        (by decide)).2.2.2.imp fun _ hc => ⟨hc.1, hc.2.1, hc.2.2.1, hc.2.2.2.1⟩⟩,
    ⟨by decide, by decide,
      (flag_fallback_frame (envOk sampleConfigSet) {} (initialGlobals {})
        (by decide)).2.2.2.imp fun _ hc => ⟨hc.1, hc.2.2.2.2.2 (by decide)⟩⟩⟩

/-- C2, as stated, fails: with a loaded configuration whose `MaxConcurrent` is
0, `init` completes and the value held is still 0, which is not at least 1. -/
theorem maxConcurrent_unset_stays_zero :
    sampleConfig.App.MaxConcurrent = 0 ∧
      (init (envOk sampleConfig) {} (initialGlobals {})).outcome = .completed ∧
      (init (envOk sampleConfig) {} (initialGlobals {})).globals.cfg.map
        (fun c => c.App.MaxConcurrent) = some 0 ∧
      (init (envOk sampleConfig) {} (initialGlobals {})).globals.cfg.map
        (fun c => decide (1 ≤ c.App.MaxConcurrent)) = some false := by
  decide

/-- C2, amended: when `init` completes, `cfg.App.MaxConcurrent` is the loaded
value, whatever it is; so it is at least 1 exactly when the loaded value is at
least 1, and a loaded 0 stays 0 (the fallback assigns the `concurrent` flag
variable, whose registered default is 0). -/
theorem maxConcurrent_is_loaded_value (env : Env) (v : Vars) (g : Globals)
    (h : (init env v g).outcome = .completed) :
    ∃ cfg, (init env v g).globals.cfg = some cfg ∧
      cfg.App.MaxConcurrent = env.configLoad.App.MaxConcurrent ∧
      (1 ≤ cfg.App.MaxConcurrent ↔ 1 ≤ env.configLoad.App.MaxConcurrent) ∧
      (env.configLoad.App.MaxConcurrent = 0 → cfg.App.MaxConcurrent = 0) := by
  refine ⟨_, (init_completed_globals env v g h).1, rfl, Iff.rfl, ?_⟩
  intro h0
  exact h0

/-- C2, amended, at a concrete start-up with `MaxConcurrent` loaded as 4. -/
theorem maxConcurrent_is_loaded_value_witness :
    (init (envOk sampleConfigSet) {} (initialGlobals {})).outcome = .completed ∧
      ∃ cfg, (init (envOk sampleConfigSet) {} (initialGlobals {})).globals.cfg = some cfg ∧
        cfg.App.MaxConcurrent = 4 ∧ 1 ≤ cfg.App.MaxConcurrent :=
  ⟨by decide,
    (maxConcurrent_is_loaded_value (envOk sampleConfigSet) {} (initialGlobals {})
      (by decide)).imp fun _ hc => ⟨hc.1, hc.2.1, hc.2.2.1.mpr (by decide)⟩⟩


/-- C9: start-up stops at the first failing step.  If `logger.Init` returned
an error, `init` reports it with `log.Fatalf` and exits with status 1 without
constructing a Redis client, calling `github.NewUpdater` or calling
`HealthCheck`; if `github.NewUpdater` returned an error, `init` reports it with
the logger's `Fatal` and exits with status 1 without calling `HealthCheck`;
and every call of `HealthCheck` is on the updater that an earlier call of
`github.NewUpdater` returned together with a nil error. -/
theorem startup_stops_at_first_failure (env : Env) (v : Vars) (g : Globals) :
    (∀ (lvl : GoString) (e : GoError),
      Event.loggerInit lvl (some e) ∈ (init env v g).trace →
        (init env v g).outcome = .exit 1 ∧
        (init env v g).trace.getLast? =
          some (.logFatalf (lit "Failed to initialize logger: %v") e) ∧
        (∀ ev ∈ (init env v g).trace,
          ev.isRedisNewClient = false ∧ ev.isNewUpdater = false ∧
            ev.isHealthCheck = false) ∧
        (init env v g).globals.redisClient = g.redisClient ∧
        (init env v g).globals.updater = g.updater) ∧
    (∀ (p : GoString) (c : RedisClient) (o r : GoString) (key : List Byte) (u : Updater)
        (e : GoError),
      Event.newUpdater p c o r key u (some e) ∈ (init env v g).trace →
        (init env v g).outcome = .exit 1 ∧
        (∃ lg, (init env v g).globals.appLogger = some lg ∧
          (init env v g).trace.getLast? =
            some (.loggerFatal lg (lit "Failed to create updater:") e)) ∧
        (∀ ev ∈ (init env v g).trace, ev.isHealthCheck = false)) ∧
    (∀ (u : Updater) (res : Option GoError),
      Event.healthCheck u res ∈ (init env v g).trace →
        env.updaterResult = (u, none) ∧
        ∃ (pre post : List Event),
          (init env v g).trace =
            pre ++ Event.newUpdater env.configLoad.Github.SSHKeyPath env.client
              env.configLoad.Github.Owner env.configLoad.Github.Repo
              (toByteSlice env.configLoad.App.EncryptionKey) u none :: post ∧
          Event.healthCheck u res ∈ post ∧
          (∀ ev ∈ pre, ev.isHealthCheck = false)) := by
  rcases hL : env.loggerResult with ⟨lg, _ | e1⟩
  · rcases hU : env.updaterResult with ⟨u1, _ | e2⟩
    · rcases hH : env.healthCheck u1 with _ | e3
      · rw [init_health_passes env v g lg u1 hL hU hH, initAfterHealthCheck_eq]
        refine ⟨?_, ?_, ?_⟩
        · intro lvl e hmem
          simp [Env.updaterTrace, Env.loggerTrace, registerFlags] at hmem
        · intro p c o r key u e hmem
          simp [Env.updaterTrace, Env.loggerTrace, registerFlags] at hmem
        · intro u res hmem
          simp [Env.updaterTrace, Env.loggerTrace, registerFlags] at hmem
          obtain ⟨rfl, rfl⟩ := hmem
          refine ⟨rfl, env.loggerTrace v none ++
            [.redisNewClient (redisOptionsOf env.configLoad)],
            [.healthCheck u none,
              .loggerInfo lg (lit "GitHub updater initialized successfully")
                (env.configLoad.Github.Owner ++ lit "/" ++ env.configLoad.Github.Repo)
                env.configLoad.Github.SSHKeyPath] ++
              (registerFlags env.DefaultCheckTimeout (env.globalsWithUpdater g lg u)).2 ++
              [.addCommand env.apiCmd], ?_, ?_, ?_⟩
          · simp [Env.updaterTrace]
          · simp
          · simp [Env.loggerTrace, Event.isHealthCheck]
      · rw [init_health_fails env v g lg u1 e3 hL hU hH]
        refine ⟨?_, ?_, ?_⟩
        · intro lvl e hmem
          simp [Env.updaterTrace, Env.loggerTrace] at hmem
        · intro p c o r key u e hmem
          simp [Env.updaterTrace, Env.loggerTrace] at hmem
        · intro u res hmem
          simp [Env.updaterTrace, Env.loggerTrace] at hmem
          obtain ⟨rfl, rfl⟩ := hmem
          refine ⟨rfl, env.loggerTrace v none ++
            [.redisNewClient (redisOptionsOf env.configLoad)],
            [.healthCheck u (some e3),
              .loggerFatal lg (lit "GitHub SSH connectivity test failed:") e3], ?_, ?_, ?_⟩
          · simp [Env.updaterTrace]
          · simp
          · simp [Env.loggerTrace, Event.isHealthCheck]
    · rw [init_updater_fails env v g lg u1 e2 hL hU]
      refine ⟨?_, ?_, ?_⟩
      · intro lvl e hmem
        simp [Env.updaterTrace, Env.loggerTrace] at hmem
      · intro p c o r key u e hmem
        simp [Env.updaterTrace, Env.loggerTrace] at hmem
        obtain ⟨-, -, -, -, -, rfl, rfl⟩ := hmem
        simp [Env.updaterTrace, Env.loggerTrace, Env.globalsWithUpdater,
          Event.isHealthCheck]
      · intro u res hmem
        simp [Env.updaterTrace, Env.loggerTrace] at hmem
  · rw [init_logger_fails env v g lg e1 hL]
    refine ⟨?_, ?_, ?_⟩
    · intro lvl e hmem
      simp [Env.loggerTrace] at hmem
      obtain ⟨-, rfl⟩ := hmem
      simp [Env.loggerTrace, Event.isRedisNewClient, Event.isNewUpdater,
        Event.isHealthCheck]
    · intro p c o r key u e hmem
      simp [Env.loggerTrace] at hmem
    · intro u res hmem
      simp [Env.loggerTrace] at hmem

/-- C9 at three concrete start-ups: `logger.Init` fails, `github.NewUpdater`
fails, and the health check is reached. -/
theorem startup_stops_at_first_failure_witness :
    (Event.loggerInit (lit "info") (some ⟨lit "bad level"⟩) ∈
        (init envLoggerFails {} (initialGlobals {})).trace ∧
      (init envLoggerFails {} (initialGlobals {})).outcome = .exit 1 ∧
      (init envLoggerFails {} (initialGlobals {})).globals.redisClient = none) ∧
    (Event.newUpdater (lit "/keys/id") ⟨redisOptionsOf sampleConfig⟩ (lit "o") (lit "r")
        (lit "0123456789abcdef").bytes ⟨0⟩ (some ⟨lit "no key"⟩) ∈
        (init envUpdaterFails {} (initialGlobals {})).trace ∧
      (init envUpdaterFails {} (initialGlobals {})).outcome = .exit 1 ∧
      ∀ ev ∈ (init envUpdaterFails {} (initialGlobals {})).trace, ev.isHealthCheck = false) ∧
    (Event.healthCheck ⟨2⟩ none ∈ (init (envOk sampleConfig) {} (initialGlobals {})).trace ∧
      (envOk sampleConfig).updaterResult = (⟨2⟩, none)) :=
  ⟨⟨by decide,
      ((startup_stops_at_first_failure envLoggerFails {} (initialGlobals {})).1
        (lit "info") ⟨lit "bad level"⟩ (by decide)).1,
      ((startup_stops_at_first_failure envLoggerFails {} (initialGlobals {})).1
        (lit "info") ⟨lit "bad level"⟩ (by decide)).2.2.2.1⟩,
    ⟨by decide,
      ((startup_stops_at_first_failure envUpdaterFails {} (initialGlobals {})).2.1
        (lit "/keys/id") ⟨redisOptionsOf sampleConfig⟩ (lit "o") (lit "r")
        (lit "0123456789abcdef").bytes ⟨0⟩ ⟨lit "no key"⟩ (by decide)).1,
      ((startup_stops_at_first_failure envUpdaterFails {} (initialGlobals {})).2.1
        (lit "/keys/id") ⟨redisOptionsOf sampleConfig⟩ (lit "o") (lit "r")
        (lit "0123456789abcdef").bytes ⟨0⟩ ⟨lit "no key"⟩ (by decide)).2.2⟩,
    ⟨by decide,
      ((startup_stops_at_first_failure (envOk sampleConfig) {} (initialGlobals {})).2.2
        ⟨2⟩ none (by decide)).1⟩⟩

end NamiraCore
